import Mathlib

/-!
Verification development for the KITSLICK ephemeral-snap backend
(`src/server-pg.js`, `src/db-pg.js`).

The PostgreSQL tables and the Express handlers are shallowly embedded:
rows become Lean structures, the database becomes lists of rows, SQL
queries become list functions, and timestamps become integers (seconds).
The feed's `ORDER BY s.created_at DESC` (which carries no tie-break) is
embedded nondeterministically: a response is *valid* when it arises from
some permutation of the stored snaps that is sorted by `created_at`
descending.
-/

namespace KitSlick

/-- The fixed 12-hour TTL, in seconds (`INTERVAL '12 hours'` in the
reaper; `setHours(getHours() + 12)` in the upload handler). -/
def TTL : Int := 12 * 60 * 60

/-- A row of the `users` table (`db-pg.js`, `initDb`). Only the columns
the embedded endpoints read are kept: `id`, `username`,
`profile_picture_url` (feed/single-snap join) and `is_active`
(the active flag of the spec). `email`, `password_hash` and the
audit timestamps are owned by the auth subsystem and never touched by
the snap lifecycle code. -/
structure User where
  id : Nat
  username : String
  profile_picture_url : Option String
  is_active : Bool
deriving DecidableEq

/-- A row of the `snaps` table (`db-pg.js`, `initDb`), with the columns
the upload handler inserts (`server-pg.js` POST /api/snaps) and the
defaults of the DDL (`view_count INTEGER DEFAULT 0`,
`is_public BOOLEAN DEFAULT true`, `created_at DEFAULT NOW()`).
Image bytes are a list of byte values. -/
structure Snap where
  id : Nat
  user_id : Nat
  image_url : String
  caption : String
  location : String
  hashtags : String
  image_data : List Nat
  mime_type : String
  created_at : Int
  expires_at : Int
  view_count : Nat
  is_public : Bool
deriving DecidableEq

/-- Modelled from the spec: the `snaps_hashtags` table's DDL is not in
the sources (`db-pg.js` only notes "Create other tables (hashtags,
...)"), so per §3 of the spec its rows are (snap id, tag text) pairs.
The whole database state: the three tables as lists of rows. -/
structure DB where
  users : List User
  snaps : List Snap
  snaps_hashtags : List (Nat × String)
deriving DecidableEq

/-! Hashtag tokenization.

`POST /api/snaps` tokenizes with
`hashtags.split(/[\s,]+/).filter(tag => tag.startsWith('#'))`
while the feed fallback uses
`snap.hashtags.split(/\s+/).filter(tag => tag.startsWith('#'))`.
`splitFields` splits at every separator character (so a run of
separators produces interior empty fields where the JS regexes, with
their `+`, produce none); the empty fields never begin with `'#'`, so
after the `startsWith('#')` filter the two readings coincide exactly. -/

/-- Fields of a character list, splitting at each character satisfying
`isSep`. -/
def splitFields (isSep : Char → Bool) : List Char → List (List Char)
  | [] => [[]]
  | c :: rest =>
    let r := splitFields isSep rest
    if isSep c then [] :: r
    else
      match r with
      | [] => [[c]]
      | f :: fs => (c :: f) :: fs

/-- `token.startsWith('#')` on a field. -/
def startsWithHash : List Char → Bool
  | [] => false
  | c :: _ => c = '#'

/-- The upload-time tokenizer of `POST /api/snaps` (`server-pg.js`):
`hashtags.split(/[\s,]+/).filter(tag => tag.startsWith('#'))` —
split on whitespace and commas, keep only `#`-initial tokens. -/
def tokenizeUpload (s : String) : List String :=
  ((splitFields (fun c => c.isWhitespace || c = ',') s.toList).filter
    startsWithHash).map (fun f => String.mk f)

/-- The feed fallback tokenizer of `GET /api/feed` (`server-pg.js`):
`snap.hashtags.split(/\s+/).filter(tag => tag.startsWith('#'))` —
split on whitespace only. -/
def tokenizeFallback (s : String) : List String :=
  ((splitFields (fun c => c.isWhitespace) s.toList).filter
    startsWithHash).map (fun f => String.mk f)

/-! Expiry Reaper (`cleanupExpiredSnaps`, `server-pg.js` lines 24-63)

One transaction:
`DELETE FROM snaps WHERE created_at < NOW() - INTERVAL '12 hours' RETURNING id`.
Note the predicate reads `created_at`, not `expires_at`. The associated
hashtag rows disappear with their snap; that cascade is Modelled from
the spec (§4.3: deletion cascades to hashtag associations via the
foreign key), the `snaps_hashtags` DDL being absent from the sources. -/

/-- The reaper's deletion predicate: `created_at < NOW() - 12 hours`. -/
def reapCondition (now : Int) (s : Snap) : Bool :=
  s.created_at < now - TTL

/-- One completed reaper pass at time `now`: the resulting database and
the number of deleted rows (`result.rowCount`). -/
def cleanupExpiredSnaps (now : Int) (db : DB) : DB × Nat :=
  let kept := db.snaps.filter (fun s => !reapCondition now s)
  ({ db with
      snaps := kept
      snaps_hashtags :=
        db.snaps_hashtags.filter (fun p => kept.any (fun s => s.id = p.1)) },
   (db.snaps.filter (reapCondition now)).length)

/-! Read paths. -/

/-- `json_agg(h.hashtag) FROM snaps_hashtags h WHERE h.snap_id = id`
(and likewise `array_agg` in the single-snap query); SQL NULL for an
empty aggregate is modelled as the empty list, matched against
emptiness where the JS checks `Array.isArray`. -/
def aggTags (db : DB) (snapId : Nat) : List String :=
  (db.snaps_hashtags.filter (fun p => p.1 = snapId)).map Prod.snd

/-- One element of the `GET /api/feed` response's `snaps` array, after
the JS post-processing: the `snap_data` CTE columns (snap fields plus
the LEFT-JOINed user columns, hence `Option`), the aggregated or
re-parsed `hashtag_list`, and the synthesized `imageUrl`. The SELECT
list carries neither `is_public`, `expires_at` nor `view_count`. -/
structure FeedItem where
  id : Nat
  caption : String
  hashtags : String
  location : String
  created_at : Int
  user_id : Option Nat
  username : Option String
  profilePictureUrl : Option String
  hashtag_list : List String
  imageUrl : String
deriving DecidableEq

/-- Builds one feed row from a snap: `LEFT JOIN users u ON
s.user_id = u.id`, the hashtag aggregation subquery, and the JS
fallback `if (!Array.isArray(snap.hashtag_list)) { ... if
(snap.hashtags && ...) snap.hashtag_list = snap.hashtags.split(/\s+/)
.filter(...) }` (the aggregate is NULL, i.e. empty, exactly when the
association table has no row for the snap). -/
def feedItemOf (db : DB) (s : Snap) : FeedItem :=
  let owner := db.users.find? (fun u => u.id = s.user_id)
  let agg := aggTags db s.id
  { id := s.id
    caption := s.caption
    hashtags := s.hashtags
    location := s.location
    created_at := s.created_at
    user_id := owner.map User.id
    username := owner.map User.username
    profilePictureUrl := owner.bind User.profile_picture_url
    hashtag_list :=
      if agg.isEmpty then
        if s.hashtags = "" then [] else tokenizeFallback s.hashtags
      else agg
    imageUrl := "/api/snaps/image/" ++ toString s.id }

/-- `page = Math.max(1, parseInt(req.query.page) || 1)`. -/
def clampPage (page : Int) : Int := max 1 page

/-- `limit = Math.min(50, Math.max(1, parseInt(req.query.limit) || 10))`. -/
def clampLimit (limit : Int) : Int := min 50 (max 1 limit)

/-- The feed response's `pagination` object. -/
structure Pagination where
  page : Int
  limit : Int
  totalItems : Nat
  totalPages : Nat
deriving DecidableEq

/-- The body of a `GET /api/feed` response. -/
structure FeedResponse where
  snaps : List FeedItem
  pagination : Pagination
deriving DecidableEq

/-- `LIMIT $1 OFFSET $2` with `offset = (page - 1) * limit`, applied to
a total order `order` of the snaps table chosen by the database. -/
def feedWindow (order : List Snap) (page limit : Int) : List Snap :=
  (order.drop (((clampPage page - 1) * clampLimit limit).toNat)).take
    (clampLimit limit).toNat

/-- The full `GET /api/feed` response assembled from the row order
`order` the database returned: windowed items,
`SELECT COUNT(*) FROM snaps` as `totalItems` (no expiry filter), and
`totalPages = Math.ceil(totalSnaps / limit)`. -/
def mkFeedResponse (db : DB) (order : List Snap) (page limit : Int) :
    FeedResponse :=
  { snaps := (feedWindow order page limit).map (feedItemOf db)
    pagination :=
      { page := clampPage page
        limit := clampLimit limit
        totalItems := db.snaps.length
        totalPages :=
          (db.snaps.length + (clampLimit limit).toNat - 1) /
            (clampLimit limit).toNat } }

/-- `ORDER BY s.created_at DESC`: the row order is sorted by
`created_at` descending. No other sort key appears in the query. -/
def CreatedDesc (order : List Snap) : Prop :=
  (order.map Snap.created_at).Pairwise (fun a b => b ≤ a)

instance (order : List Snap) : Decidable (CreatedDesc order) := by
  unfold CreatedDesc
  infer_instance

/-- The admissible `GET /api/feed` responses: the query's `ORDER BY`
constrains the row order only up to ties in `created_at`, so a response
is valid when some permutation of the snaps table that is sorted by
`created_at` descending produces it. -/
def FeedValid (db : DB) (page limit : Int) (resp : FeedResponse) : Prop :=
  ∃ order : List Snap, order.Perm db.snaps ∧ CreatedDesc order ∧
    resp = mkFeedResponse db order page limit

/-- The `GET /api/snaps/:id` row: the SELECT list of the single-snap
query (no `is_public`, no `expires_at`, no `view_count`). The inner
`JOIN users` means a snap whose owner row is missing yields no row. -/
structure SnapMeta where
  id : Nat
  imageUrl : String
  caption : String
  hashtags : String
  hashtag_list : List String
  location : String
  createdAt : Int
  username : String
  profilePictureUrl : Option String
deriving DecidableEq

/-- `GET /api/snaps/:id` (`server-pg.js` lines 559-598): `WHERE s.id =
$1` with an inner join on `users`; zero rows give a 404, modelled as
`none`. The query carries no expiry condition. -/
def getSnapMeta (db : DB) (id : Nat) : Option SnapMeta :=
  match db.snaps.find? (fun s => s.id = id) with
  | none => none
  | some s =>
    match db.users.find? (fun u => u.id = s.user_id) with
    | none => none
    | some u =>
      some { id := s.id
             imageUrl := s.image_url
             caption := s.caption
             hashtags := s.hashtags
             hashtag_list := aggTags db s.id
             location := s.location
             createdAt := s.created_at
             username := u.username
             profilePictureUrl := u.profile_picture_url }

/-- `GET /api/snaps/image/:id` (`server-pg.js` lines 438-460):
`SELECT image_data, mime_type FROM snaps WHERE id = $1`; zero rows give
a 404 ("Image not found"), modelled as `none`. No expiry condition. -/
def getSnapImage (db : DB) (id : Nat) : Option (List Nat × String) :=
  (db.snaps.find? (fun s => s.id = id)).map
    (fun s => (s.image_data, s.mime_type))

/-! Upload (`POST /api/snaps`, `server-pg.js` lines 277-435)

The handler runs BEGIN, decodes the bearer token, looks the user up
(`SELECT id, username FROM users WHERE id = $1` — no condition on
`is_active`), reads the temp file, INSERTs the snap (with `created_at`,
`view_count` and `is_public` left to their column defaults), loops over
the tokenized hashtags inserting each with `ON CONFLICT DO NOTHING`
inside its own try/catch, unlinks the temp file, and COMMITs. The outer
catch unlinks the temp file (in a swallowed inner try) and ROLLBACKs;
the user-not-found path returns 404 directly, before any INSERT and
without unlinking. Failures are injected through `UploadCtx`. -/

/-- The client-supplied parts of an upload request: the authenticated
user id decoded from the JWT, the form fields `caption`, `hashtags`,
`location`, and the staged image file. -/
structure UploadArgs where
  userId : Nat
  caption : String
  hashtags : String
  location : String
  image_data : List Nat
  mime_type : String
  origName : String
deriving DecidableEq

/-- The steps of the upload transaction at which a
non-per-tag-tolerated error can be injected, reaching the outer catch:
`fs.readFileSync` throwing, the snap INSERT failing, or COMMIT
failing. (Per-tag insert failures are tolerated separately.) -/
inductive FatalStep
  | readFile
  | insertSnap
  | commit
deriving DecidableEq

/-- Server-side circumstances of one upload: the two clock readings
(`new Date()` on the app server for `expires_at`; the database's
`NOW()` default for `created_at`), `Date.now()` used in the stored
virtual `image_url`, the id the database generates for the new row,
an optionally injected fatal error, and the set of tags whose
individual INSERT throws (logged and skipped). -/
structure UploadCtx where
  jsNow : Int
  dbNow : Int
  nowMs : Nat
  newId : Nat
  fatal : Option FatalStep
  tagFails : List String
deriving DecidableEq

/-- The handler's possible responses: 201 with the created snap's id,
owner username and `created_at`; 404 "User not found"; 500 "Failed to
upload snap". -/
inductive UploadResponse
  | created (snapId : Nat) (username : String) (createdAt : Int)
  | userNotFound
  | serverFault
deriving DecidableEq

/-- What one `POST /api/snaps` request leaves behind: the database
after COMMIT or ROLLBACK, the HTTP response, and whether the temporary
uploaded file was unlinked. -/
structure UploadResult where
  db : DB
  response : UploadResponse
  tempFileRemoved : Bool
deriving DecidableEq

/-- Modelled from the spec: the `snaps_hashtags` DDL (absent from the
sources) makes (snap_id, hashtag) unique per pair (§3), so the
`ON CONFLICT DO NOTHING` of the per-tag INSERT loop
(`server-pg.js` lines 372-384) skips a pair that is already present.
A tag in `tagFails` models an individual INSERT that throws: the inner
catch logs it and the loop continues. -/
def indexHashtags (snapId : Nat) (tagFails : List String) :
    List (Nat × String) → List String → List (Nat × String)
  | assoc, [] => assoc
  | assoc, tag :: rest =>
    indexHashtags snapId tagFails
      (if tag ∈ tagFails then assoc
       else if (snapId, tag) ∈ assoc then assoc
       else assoc ++ [(snapId, tag)]) rest

/-- The snap row the upload INSERT stores: `expires_at` was computed
from the app-server clock before the INSERT (`new Date()` plus 12
hours), `created_at` takes the column default `NOW()` on the database
server, `view_count` and `is_public` take their column defaults. -/
def insertedSnap (args : UploadArgs) (ctx : UploadCtx) : Snap :=
  { id := ctx.newId
    user_id := args.userId
    image_url :=
      "/api/snaps/image/" ++ toString ctx.nowMs ++ "-" ++ args.origName
    caption := args.caption
    location := args.location
    hashtags := args.hashtags
    image_data := args.image_data
    mime_type := args.mime_type
    created_at := ctx.dbNow
    expires_at := ctx.jsNow + TTL
    view_count := 0
    is_public := true }

/-- The whole `POST /api/snaps` transaction. The user lookup precedes
everything else that can fail; its miss returns 404 with neither
rollback nor unlink. Any injected fatal error reaches the outer catch:
temp file unlinked, ROLLBACK (so the database is unchanged), 500. On
success the snap row and the surviving tag rows are committed and the
temp file was unlinked before COMMIT. -/
def createSnap (db : DB) (args : UploadArgs) (ctx : UploadCtx) :
    UploadResult :=
  match db.users.find? (fun u => u.id = args.userId) with
  | none => { db := db, response := .userNotFound, tempFileRemoved := false }
  | some u =>
    match ctx.fatal with
    | some _ => { db := db, response := .serverFault, tempFileRemoved := true }
    | none =>
      let snap := insertedSnap args ctx
      let assoc :=
        if args.hashtags = "" then db.snaps_hashtags
        else
          indexHashtags ctx.newId ctx.tagFails db.snaps_hashtags
            (tokenizeUpload args.hashtags)
      { db := { db with snaps := db.snaps ++ [snap], snaps_hashtags := assoc }
        response := .created ctx.newId u.username ctx.dbNow
        tempFileRemoved := true }

/-! Operations, for frame properties. -/

/-- The operations that touch the snap store over a process lifetime:
uploads, reaper passes, and the three read endpoints (whose handlers
issue only SELECTs). -/
inductive Op
  | upload (args : UploadArgs) (ctx : UploadCtx)
  | reap (now : Int)
  | feedReq (page limit : Int)
  | imageReq (id : Nat)
  | snapReq (id : Nat)

/-- State transition of one operation. The read handlers leave the
database untouched. -/
def applyOp (db : DB) : Op → DB
  | .upload args ctx => (createSnap db args ctx).db
  | .reap now => (cleanupExpiredSnaps now db).1
  | .feedReq _ _ => db
  | .imageReq _ => db
  | .snapReq _ => db

/-- Runs a sequence of operations. -/
def runOps (db : DB) (ops : List Op) : DB := ops.foldl applyOp db


/-! Projections for the visibility hyperproperty. -/

/-- The columns of a snap row other than the visibility flag
`is_public`. Every read endpoint's output is a function of these. -/
structure SnapCore where
  id : Nat
  user_id : Nat
  image_url : String
  caption : String
  location : String
  hashtags : String
  image_data : List Nat
  mime_type : String
  created_at : Int
  expires_at : Int
  view_count : Nat
deriving DecidableEq

/-- Forgets the `is_public` column of a snap row. -/
def Snap.core (s : Snap) : SnapCore :=
  { id := s.id, user_id := s.user_id, image_url := s.image_url
    caption := s.caption, location := s.location, hashtags := s.hashtags
    image_data := s.image_data, mime_type := s.mime_type
    created_at := s.created_at, expires_at := s.expires_at
    view_count := s.view_count }

/-- Two database states that differ only in the `is_public` values of
their snaps: same users, same hashtag rows, and row-by-row equal snaps
up to the visibility flag. -/
def VisibilityTwin (db1 db2 : DB) : Prop :=
  db1.users = db2.users ∧ db1.snaps_hashtags = db2.snaps_hashtags ∧
    List.Forall₂ (fun a b => a.core = b.core) db1.snaps db2.snaps

/-! Concrete rows and states, used by counterexamples and witnesses. -/

/-- An active user. -/
def aliceU : User :=
  { id := 1, username := "alice", profile_picture_url := none,
    is_active := true }

/-- A user whose `is_active` flag is cleared. -/
def bobInactive : User :=
  { id := 7, username := "bob", profile_picture_url := none,
    is_active := false }

/-- A snap owned by `aliceU` with the given id and timestamps. -/
def sampleSnap (id : Nat) (created expires : Int) : Snap :=
  { id := id, user_id := 1, image_url := "/api/snaps/image/x"
    caption := "c", location := "", hashtags := ""
    image_data := [0], mime_type := "image/png"
    created_at := created, expires_at := expires
    view_count := 0, is_public := true }

/-- An upload request by user 1. -/
def sampleArgs : UploadArgs :=
  { userId := 1, caption := "hi", hashtags := "", location := ""
    image_data := [1, 2], mime_type := "image/png", origName := "a.png" }

/-- Server circumstances whose two clock readings disagree by one
second. -/
def skewedCtx : UploadCtx :=
  { jsNow := 0, dbNow := 1, nowMs := 5, newId := 10, fatal := none,
    tagFails := [] }

/-- Server circumstances with no injected failure. -/
def plainCtx : UploadCtx :=
  { jsNow := 0, dbNow := 0, nowMs := 1, newId := 42, fatal := none,
    tagFails := [] }

/-- Server circumstances where COMMIT fails. -/
def commitFailCtx : UploadCtx :=
  { jsNow := 0, dbNow := 0, nowMs := 1, newId := 42,
    fatal := some .commit, tagFails := [] }

/-- An upload request by user 7. -/
def bobArgs : UploadArgs :=
  { userId := 7, caption := "", hashtags := "", location := ""
    image_data := [3], mime_type := "image/png", origName := "b.png" }

def aliceDb : DB := { users := [aliceU], snaps := [], snaps_hashtags := [] }

def emptyDb : DB := { users := [], snaps := [], snaps_hashtags := [] }

def inactiveDb : DB :=
  { users := [bobInactive], snaps := [], snaps_hashtags := [] }

/-- Created at second 0, so expired at second 43200. -/
def expiredSnap : Snap := sampleSnap 6 0 TTL

def expiredDb : DB :=
  { users := [aliceU], snaps := [expiredSnap], snaps_hashtags := [] }

def staleSnap : Snap := sampleSnap 4 0 TTL

def freshSnap : Snap := sampleSnap 5 100000 143200

def reaperDb : DB :=
  { users := [aliceU], snaps := [staleSnap, freshSnap],
    snaps_hashtags := [] }

def tieSnapA : Snap := sampleSnap 1 100 143200

def tieSnapB : Snap := sampleSnap 2 100 143200

def tieSnapC : Snap := sampleSnap 3 99 143199

/-- Three snaps with creation times t, t, t - 1. -/
def tieDb : DB :=
  { users := [aliceU], snaps := [tieSnapA, tieSnapB, tieSnapC],
    snaps_hashtags := [] }

/-- Two snaps with distinct creation times. -/
def distinctDb : DB :=
  { users := [aliceU], snaps := [tieSnapA, tieSnapC],
    snaps_hashtags := [] }

def pubDb : DB :=
  { users := [aliceU], snaps := [sampleSnap 9 0 TTL],
    snaps_hashtags := [] }

/-- The snap of `pubDb` with its visibility flag flipped. -/
def privSnap : Snap := { sampleSnap 9 0 TTL with is_public := false }

def privDb : DB :=
  { users := [aliceU], snaps := [privSnap], snaps_hashtags := [] }


/-! Helper lemmas. -/

/-- Splitting is unchanged when the two separator predicates agree on
every character of the list. -/
theorem splitFields_congr {p q : Char → Bool} :
    ∀ cs : List Char, (∀ c ∈ cs, p c = q c) →
      splitFields p cs = splitFields q cs := by
  intro cs
  induction cs with
  | nil => intro _; rfl
  | cons c rest ih =>
    intro h
    have hc : p c = q c := h c (by simp)
    have hr : splitFields p rest = splitFields q rest :=
      ih (fun x hx => h x (by simp [hx]))
    simp only [splitFields, hc, hr]

/-- `find?` by primary key returns the member itself when ids are
unique. -/
theorem find?_id_eq_some (l : List Snap) (s : Snap)
    (hnd : (l.map Snap.id).Nodup) (hs : s ∈ l) :
    l.find? (fun x => x.id = s.id) = some s := by
  induction l with
  | nil => cases hs
  | cons a rest ih =>
    have hnd2 : a.id ∉ rest.map Snap.id ∧ (rest.map Snap.id).Nodup := by
      simpa [List.nodup_cons] using hnd
    rcases List.mem_cons.mp hs with rfl | hmem
    · simp [List.find?]
    · have hne : ¬ (a.id = s.id) := by
        intro e
        exact hnd2.1 (e ▸ List.mem_map_of_mem Snap.id hmem)
      rw [List.find?_cons_of_neg _ (by simpa using hne)]
      exact ih hnd2.2 hmem

/-- Two equal-multiset row orders that are both sorted by `created_at`
descending coincide when the timestamps are pairwise distinct. -/
theorem sorted_nodup_unique (l1 l2 : List Snap) (hp : l1.Perm l2)
    (h1 : CreatedDesc l1) (h2 : CreatedDesc l2)
    (hnd : (l1.map Snap.created_at).Nodup) : l1 = l2 := by
  have strict : ∀ l : List Snap, CreatedDesc l →
      (l.map Snap.created_at).Nodup →
      l.Pairwise (fun a b => b.created_at < a.created_at) := by
    intro l hle hnd0
    have hle2 : l.Pairwise (fun a b => b.created_at ≤ a.created_at) :=
      (List.pairwise_map).mp hle
    have hne2 : l.Pairwise (fun a b => a.created_at ≠ b.created_at) :=
      (List.pairwise_map).mp hnd0
    exact (hle2.and hne2).imp (fun h => lt_of_le_of_ne h.1 (Ne.symm h.2))
  have hnd2 : (l2.map Snap.created_at).Nodup :=
    ((hp.map Snap.created_at).nodup_iff).mp hnd
  haveI : IsAntisymm Snap (fun a b => b.created_at < a.created_at) :=
    ⟨fun a b hab hba => absurd (lt_trans hab hba) (lt_irrefl _)⟩
  exact List.eq_of_perm_of_sorted hp (strict l1 h1 hnd) (strict l2 h2 hnd2)

/-- Membership in the hashtag fan-out result, with no failing tags:
the rows after the loop are the old rows plus one row per listed tag. -/
theorem mem_indexHashtags (snapId : Nat) :
    ∀ (tags : List String) (assoc : List (Nat × String))
      (p : Nat × String),
      (p ∈ indexHashtags snapId [] assoc tags ↔
        p ∈ assoc ∨ ∃ t ∈ tags, p = (snapId, t)) := by
  intro tags
  induction tags with
  | nil => intro assoc p; simp [indexHashtags]
  | cons tag rest ih =>
    intro assoc p
    simp only [indexHashtags, List.not_mem_nil, if_false]
    by_cases hmem : (snapId, tag) ∈ assoc
    · rw [if_pos hmem, ih]
      constructor
      · rintro (hp | ⟨t, ht, rfl⟩)
        · exact Or.inl hp
        · exact Or.inr ⟨t, by simp [ht], rfl⟩
      · rintro (hp | ⟨t, ht, rfl⟩)
        · exact Or.inl hp
        · rcases List.mem_cons.mp ht with rfl | ht2
          · exact Or.inl hmem
          · exact Or.inr ⟨t, ht2, rfl⟩
    · rw [if_neg hmem, ih]
      constructor
      · rintro (hp | ⟨t, ht, rfl⟩)
        · rcases List.mem_append.mp hp with hp2 | hp3
          · exact Or.inl hp2
          · exact Or.inr ⟨tag, List.mem_cons_self _ _, by simpa using hp3⟩
        · exact Or.inr ⟨t, List.mem_cons_of_mem _ ht, rfl⟩
      · rintro (hp | ⟨t, ht, rfl⟩)
        · exact Or.inl (List.mem_append.mpr (Or.inl hp))
        · rcases List.mem_cons.mp ht with rfl | ht2
          · exact Or.inl (List.mem_append.mpr (Or.inr (by simp)))
          · exact Or.inr ⟨t, ht2, rfl⟩

/-- Each operation preserves all-zero view counts: uploads append a row
whose `view_count` takes the column default 0, the reaper only deletes,
and the read handlers issue no writes. -/
theorem viewZero_applyOp (db : DB) (op : Op)
    (h : ∀ s ∈ db.snaps, s.view_count = 0) :
    ∀ s ∈ (applyOp db op).snaps, s.view_count = 0 := by
  cases op with
  | upload args ctx =>
    intro s hs
    simp only [applyOp] at hs
    unfold createSnap at hs
    split at hs
    · exact h s hs
    · split at hs
      · exact h s hs
      · simp only at hs
        rcases List.mem_append.mp hs with h1 | h2
        · exact h s h1
        · have hins : s = insertedSnap args ctx := by simpa using h2
          rw [hins]
          rfl
  | reap now =>
    intro s hs
    simp only [applyOp, cleanupExpiredSnaps] at hs
    exact h s (List.mem_filter.mp hs).1
  | feedReq page limit => exact h
  | imageReq id => exact h
  | snapReq id => exact h

/-- Core-related rows carry the same timestamps. -/
theorem forall₂_core_created_map :
    ∀ {l1 l2 : List Snap},
      List.Forall₂ (fun a b => a.core = b.core) l1 l2 →
      l1.map Snap.created_at = l2.map Snap.created_at := by
  intro l1 l2 h
  induction h with
  | nil => rfl
  | cons hab _ ih =>
    simp only [List.map_cons, ih, List.cons.injEq, and_true]
    exact congrArg SnapCore.created_at hab

/-- A feed row is a function of the snap's core and the shared
users/hashtags tables: `feedItemOf` never reads `is_public`. -/
theorem feedItemOf_congr (db1 db2 : DB) (hu : db1.users = db2.users)
    (hh : db1.snaps_hashtags = db2.snaps_hashtags) (a b : Snap)
    (hc : a.core = b.core) : feedItemOf db1 a = feedItemOf db2 b := by
  obtain ⟨i1, u1, iu1, c1, l1, ht1, d1, m1, ca1, e1, v1, p1⟩ := a
  obtain ⟨i2, u2, iu2, c2, l2, ht2, d2, m2, ca2, e2, v2, p2⟩ := b
  simp only [Snap.core, SnapCore.mk.injEq] at hc
  obtain ⟨rfl, rfl, rfl, rfl, rfl, rfl, rfl, rfl, rfl, rfl, rfl⟩ := hc
  simp only [feedItemOf, aggTags, hu, hh]

/-- Windows of core-related orders render to the same feed rows. -/
theorem map_feedItemOf_congr (db1 db2 : DB) (hu : db1.users = db2.users)
    (hh : db1.snaps_hashtags = db2.snaps_hashtags) :
    ∀ {w1 w2 : List Snap},
      List.Forall₂ (fun a b => a.core = b.core) w1 w2 →
      w1.map (feedItemOf db1) = w2.map (feedItemOf db2) := by
  intro w1 w2 h
  induction h with
  | nil => rfl
  | cons hab _ ih =>
    simp only [List.map_cons, ih, List.cons.injEq, and_true]
    exact feedItemOf_congr db1 db2 hu hh _ _ hab

/-- Every valid response over `db1` is valid over its visibility twin
`db2`. -/
theorem feedValid_imp (db1 db2 : DB) (hu : db1.users = db2.users)
    (hh : db1.snaps_hashtags = db2.snaps_hashtags)
    (hf : List.Forall₂ (fun a b => a.core = b.core) db1.snaps db2.snaps)
    (page limit : Int) (resp : FeedResponse) :
    FeedValid db1 page limit resp → FeedValid db2 page limit resp := by
  rintro ⟨o1, hp1, hs1, rfl⟩
  obtain ⟨o2, ho, hpo⟩ := List.perm_comp_forall₂ hp1 hf
  refine ⟨o2, hpo, ?_, ?_⟩
  · unfold CreatedDesc
    rw [← forall₂_core_created_map ho]
    exact hs1
  · unfold mkFeedResponse
    have hw : List.Forall₂ (fun a b => a.core = b.core)
        (feedWindow o1 page limit) (feedWindow o2 page limit) := by
      unfold feedWindow
      exact List.forall₂_take _ (List.forall₂_drop _ ho)
    rw [map_feedItemOf_congr db1 db2 hu hh hw, hf.length_eq]

/-- `find?` by id returns core-equal rows over core-related tables. -/
theorem find?_core_congr :
    ∀ {l1 l2 : List Snap},
      List.Forall₂ (fun a b => a.core = b.core) l1 l2 → ∀ id : Nat,
      (l1.find? (fun s => s.id = id)).map Snap.core =
        (l2.find? (fun s => s.id = id)).map Snap.core := by
  intro l1 l2 h
  induction h with
  | nil => intro id; rfl
  | @cons a b tl1 tl2 hab _ ih =>
    intro id
    have hid : a.id = b.id := congrArg SnapCore.id hab
    by_cases hcase : a.id = id
    · rw [List.find?_cons_of_pos _ (by simpa using hcase),
        List.find?_cons_of_pos _ (by simp [← hid, hcase])]
      simpa using hab
    · rw [List.find?_cons_of_neg _ (by simpa using hcase),
        List.find?_cons_of_neg _ (by simp [← hid, hcase])]
      exact ih id

/-- The single-snap endpoint cannot see the visibility flag. -/
theorem getSnapMeta_congr (db1 db2 : DB) (hu : db1.users = db2.users)
    (hh : db1.snaps_hashtags = db2.snaps_hashtags)
    (hf : List.Forall₂ (fun a b => a.core = b.core) db1.snaps db2.snaps)
    (id : Nat) : getSnapMeta db1 id = getSnapMeta db2 id := by
  have hcore := find?_core_congr hf id
  unfold getSnapMeta
  cases h1 : db1.snaps.find? (fun s => s.id = id) with
  | none =>
    cases h2 : db2.snaps.find? (fun s => s.id = id) with
    | none => rfl
    | some b => rw [h1, h2] at hcore; simp at hcore
  | some a =>
    cases h2 : db2.snaps.find? (fun s => s.id = id) with
    | none => rw [h1, h2] at hcore; simp at hcore
    | some b =>
      rw [h1, h2] at hcore
      simp only [Option.map_some', Option.some.injEq] at hcore
      dsimp only
      obtain ⟨i1, u1, iu1, c1, l1, ht1, d1, m1, ca1, e1, v1, p1⟩ := a
      obtain ⟨i2, u2, iu2, c2, l2, ht2, d2, m2, ca2, e2, v2, p2⟩ := b
      simp only [Snap.core, SnapCore.mk.injEq] at hcore
      obtain ⟨rfl, rfl, rfl, rfl, rfl, rfl, rfl, rfl, rfl, rfl, rfl⟩ :=
        hcore
      simp only [aggTags, hu, hh]

/-- The image endpoint cannot see the visibility flag. -/
theorem getSnapImage_congr (db1 db2 : DB)
    (hf : List.Forall₂ (fun a b => a.core = b.core) db1.snaps db2.snaps)
    (id : Nat) : getSnapImage db1 id = getSnapImage db2 id := by
  have hcore := find?_core_congr hf id
  unfold getSnapImage
  cases h1 : db1.snaps.find? (fun s => s.id = id) with
  | none =>
    cases h2 : db2.snaps.find? (fun s => s.id = id) with
    | none => rfl
    | some b => rw [h1, h2] at hcore; simp at hcore
  | some a =>
    cases h2 : db2.snaps.find? (fun s => s.id = id) with
    | none => rw [h1, h2] at hcore; simp at hcore
    | some b =>
      rw [h1, h2] at hcore
      simp only [Option.map_some', Option.some.injEq] at hcore
      simp only [Option.map_some', Option.some.injEq, Prod.mk.injEq]
      have hd := congrArg SnapCore.image_data hcore
      have hm := congrArg SnapCore.mime_type hcore
      exact ⟨hd, hm⟩


/-! Claim C1. -/

/-- C1 counterexample: in a store holding one snap whose `expires_at`
(43200) lies before the current time (432000), the feed still lists
the snap and counts it in `totalItems`, and both the single-snap fetch
and the image fetch still return it — the read paths do not omit
expired snaps. -/
theorem C1_counterexample :
    expiredSnap.expires_at < 432000 ∧
    FeedValid expiredDb 1 10 (mkFeedResponse expiredDb [expiredSnap] 1 10) ∧
    (mkFeedResponse expiredDb [expiredSnap] 1 10).snaps.map FeedItem.id =
      [6] ∧
    (mkFeedResponse expiredDb [expiredSnap] 1 10).pagination.totalItems =
      1 ∧
    getSnapMeta expiredDb 6 ≠ none ∧
    getSnapImage expiredDb 6 ≠ none := by
  refine ⟨by decide,
    ⟨[expiredSnap], List.Perm.refl _, by decide, rfl⟩,
    by decide, by decide, by decide, by decide⟩

/-- C1 (amended): the read paths perform no expiry filtering — the
feed's `totalItems` counts every stored snap and every stored snap is
returned by the image fetch regardless of `expires_at`; expiry is
enforced solely by the reaper, so after a completed pass every snap any
read path returns has `created_at ≥ now - 12h`. -/
theorem C1_reads_unfiltered_reaper_enforces_expiry
    (db : DB) (now page limit : Int)
    (hids : (db.snaps.map Snap.id).Nodup) :
    (∀ resp, FeedValid db page limit resp →
        resp.pagination.totalItems = db.snaps.length)
    ∧ (∀ s ∈ db.snaps,
        getSnapImage db s.id = some (s.image_data, s.mime_type))
    ∧ (∀ resp, FeedValid (cleanupExpiredSnaps now db).1 page limit resp →
        ∀ item ∈ resp.snaps, now - TTL ≤ item.created_at)
    ∧ (∀ id m, getSnapMeta (cleanupExpiredSnaps now db).1 id = some m →
        now - TTL ≤ m.createdAt)
    ∧ (∀ id r, getSnapImage (cleanupExpiredSnaps now db).1 id = some r →
        ∃ s ∈ (cleanupExpiredSnaps now db).1.snaps, s.id = id ∧
          now - TTL ≤ s.created_at) := by
  refine ⟨?_, ?_, ?_, ?_, ?_⟩
  · rintro resp ⟨o, hp, hs, rfl⟩
    rfl
  · intro s hs
    unfold getSnapImage
    rw [find?_id_eq_some db.snaps s hids hs]
    rfl
  · rintro resp ⟨o, hp, hs, rfl⟩
    intro item hitem
    obtain ⟨s, hsw, rfl⟩ := List.mem_map.mp hitem
    have hso : s ∈ o :=
      List.mem_of_mem_drop (List.mem_of_mem_take hsw)
    have hsf : s ∈ (cleanupExpiredSnaps now db).1.snaps := hp.mem_iff.mp hso
    have hkept : now - TTL ≤ s.created_at := by
      simp only [cleanupExpiredSnaps, List.mem_filter, reapCondition,
        Bool.not_eq_eq_eq_not, Bool.not_true, decide_eq_false_iff_not,
        not_lt] at hsf
      exact hsf.2
    exact hkept
  · intro id m hm
    unfold getSnapMeta at hm
    cases hfind : (cleanupExpiredSnaps now db).1.snaps.find?
        (fun s => s.id = id) with
    | none => rw [hfind] at hm; exact absurd hm (by simp)
    | some s =>
      rw [hfind] at hm
      dsimp only at hm
      cases hu : (cleanupExpiredSnaps now db).1.users.find?
          (fun u => u.id = s.user_id) with
      | none => rw [hu] at hm; exact absurd hm (by simp)
      | some u =>
        rw [hu] at hm
        have hmem := List.mem_of_find?_eq_some hfind
        have hkept : now - TTL ≤ s.created_at := by
          simp only [cleanupExpiredSnaps, List.mem_filter, reapCondition,
            Bool.not_eq_eq_eq_not, Bool.not_true, decide_eq_false_iff_not,
            not_lt] at hmem
          exact hmem.2
        have hm2 : m.createdAt = s.created_at := by
          cases hm
          rfl
        rw [hm2]
        exact hkept
  · intro id r h5
    unfold getSnapImage at h5
    cases hfind : (cleanupExpiredSnaps now db).1.snaps.find?
        (fun s => s.id = id) with
    | none => rw [hfind] at h5; exact absurd h5 (by simp)
    | some s =>
      have hmem := List.mem_of_find?_eq_some hfind
      have hid : s.id = id := by
        have := List.find?_some hfind
        simpa using this
      have hkept : now - TTL ≤ s.created_at := by
        simp only [cleanupExpiredSnaps, List.mem_filter, reapCondition,
          Bool.not_eq_eq_eq_not, Bool.not_true, decide_eq_false_iff_not,
          not_lt] at hmem
        exact hmem.2
      exact ⟨s, hmem, hid, hkept⟩

/-- C1 witness: the amended theorem applied to the one-expired-snap
store. -/
theorem C1_reads_unfiltered_reaper_enforces_expiry_witness :
    (mkFeedResponse expiredDb [expiredSnap] 1 10).pagination.totalItems =
      expiredDb.snaps.length ∧
    getSnapImage expiredDb expiredSnap.id =
      some (expiredSnap.image_data, expiredSnap.mime_type) :=
  ⟨(C1_reads_unfiltered_reaper_enforces_expiry expiredDb 432000 1 10
      (by decide)).1 _
      ⟨[expiredSnap], List.Perm.refl _, by decide, rfl⟩,
   (C1_reads_unfiltered_reaper_enforces_expiry expiredDb 432000 1 10
      (by decide)).2.1 expiredSnap (by decide)⟩

/-! Claim C2. -/

/-- C2 counterexample: a successful upload whose app-server clock reads
second 0 while the database clock reads second 1 stores
`expires_at = 43200` but `created_at = 1`, so the stored `expires_at`
is not `created_at` plus exactly 12 hours. -/
theorem C2_counterexample :
    (createSnap aliceDb sampleArgs skewedCtx).response =
      .created 10 "alice" 1 ∧
    (createSnap aliceDb sampleArgs skewedCtx).db.snaps =
      [insertedSnap sampleArgs skewedCtx] ∧
    (insertedSnap sampleArgs skewedCtx).expires_at ≠
      (insertedSnap sampleArgs skewedCtx).created_at + TTL := by
  decide

/-- C2 (amended): for every snap created by a successful upload, the
stored `expires_at` equals the app-server request-time clock plus
exactly 12 hours — computed server-side, independent of every
client-supplied field — while `created_at` is the database server's
insert-time clock; the two differ by exactly 12 hours precisely when
the two clock readings coincide. -/
theorem C2_expires_at_from_request_clock (db : DB) (args : UploadArgs)
    (ctx : UploadCtx) (s : Snap)
    (h : (createSnap db args ctx).db.snaps = db.snaps ++ [s]) :
    s.expires_at = ctx.jsNow + TTL ∧ s.created_at = ctx.dbNow ∧
    (s.expires_at = s.created_at + TTL ↔ ctx.jsNow = ctx.dbNow) := by
  unfold createSnap at h
  split at h
  · simp at h
  · split at h
    · simp at h
    · simp only at h
      have h2 := List.append_cancel_left h
      have hs : s = insertedSnap args ctx := by simpa using h2.symm
      subst hs
      refine ⟨rfl, rfl, ?_⟩
      have hgoal : ctx.jsNow + TTL = ctx.dbNow + TTL ↔
          ctx.jsNow = ctx.dbNow := by
        unfold TTL
        constructor <;> intro h3 <;> omega
      exact hgoal

/-- C2 witness: the amended theorem applied to the skewed-clock
upload. -/
theorem C2_expires_at_from_request_clock_witness :
    (insertedSnap sampleArgs skewedCtx).expires_at =
      skewedCtx.jsNow + TTL :=
  (C2_expires_at_from_request_clock aliceDb sampleArgs skewedCtx _
    (by decide)).1

/-! Claim C3. -/

/-- C3 counterexample: with snaps created at t, t, t - 1, two different
page-1 limit-2 responses are both valid for the unchanged store — the
query orders by `created_at` descending alone, so the tied pair can
come back in either order. -/
theorem C3_counterexample :
    tieDb.snaps.map Snap.created_at = [100, 100, 99] ∧
    FeedValid tieDb 1 2
      (mkFeedResponse tieDb [tieSnapA, tieSnapB, tieSnapC] 1 2) ∧
    FeedValid tieDb 1 2
      (mkFeedResponse tieDb [tieSnapB, tieSnapA, tieSnapC] 1 2) ∧
    mkFeedResponse tieDb [tieSnapA, tieSnapB, tieSnapC] 1 2 ≠
      mkFeedResponse tieDb [tieSnapB, tieSnapA, tieSnapC] 1 2 := by
  refine ⟨by decide,
    ⟨[tieSnapA, tieSnapB, tieSnapC], List.Perm.refl _, by decide, rfl⟩,
    ⟨[tieSnapB, tieSnapA, tieSnapC],
      List.Perm.swap tieSnapA tieSnapB [tieSnapC], by decide, rfl⟩,
    by decide⟩

/-- C3 (amended): the feed is ordered by `created_at` descending with
no id tie-break, so every valid response is sorted by creation time
descending, and responses are unique (hence repeatable) exactly when
the stored timestamps are pairwise distinct. -/
theorem C3_feed_desc_no_tiebreak (db : DB) (page limit : Int)
    (hnd : (db.snaps.map Snap.created_at).Nodup) :
    (∀ r1 r2, FeedValid db page limit r1 → FeedValid db page limit r2 →
      r1 = r2)
    ∧ (∀ r, FeedValid db page limit r →
        (r.snaps.map FeedItem.created_at).Pairwise (fun a b => b ≤ a)) := by
  constructor
  · rintro r1 r2 ⟨o1, hp1, hs1, rfl⟩ ⟨o2, hp2, hs2, rfl⟩
    have hnd1 : (o1.map Snap.created_at).Nodup :=
      ((hp1.map Snap.created_at).nodup_iff).mpr hnd
    rw [sorted_nodup_unique o1 o2 (hp1.trans hp2.symm) hs1 hs2 hnd1]
  · rintro r ⟨o, hp, hs, rfl⟩
    have hpo : o.Pairwise (fun a b => b.created_at ≤ a.created_at) :=
      (List.pairwise_map).mp hs
    have hw : (feedWindow o page limit).Pairwise
        (fun a b => b.created_at ≤ a.created_at) :=
      hpo.sublist ((List.take_sublist _ _).trans (List.drop_sublist _ _))
    simp only [mkFeedResponse, List.map_map]
    rw [List.pairwise_map]
    exact hw

/-- C3 witness: the amended theorem applied to a distinct-timestamp
store. -/
theorem C3_feed_desc_no_tiebreak_witness :
    ((mkFeedResponse distinctDb [tieSnapA, tieSnapC] 1 2).snaps.map
      FeedItem.created_at).Pairwise (fun a b => b ≤ a) :=
  (C3_feed_desc_no_tiebreak distinctDb 1 2 (by decide)).2 _
    ⟨[tieSnapA, tieSnapC], List.Perm.refl _, by decide, rfl⟩

/-! Claim C4. -/

/-- C4 counterexample: on the raw string "#foo,#bar" the upload-time
tokenizer (split on whitespace and commas) yields two tags while the
feed's fallback tokenizer (split on whitespace only) yields the single
token "#foo,#bar" — the two tokenizations differ. -/
theorem C4_counterexample :
    tokenizeUpload "#foo,#bar" = ["#foo", "#bar"] ∧
    tokenizeFallback "#foo,#bar" = ["#foo,#bar"] ∧
    tokenizeUpload "#foo,#bar" ≠ tokenizeFallback "#foo,#bar" := by
  decide

/-- C4 (amended): the fallback tokenizer splits only on whitespace, not
commas, so it agrees with the upload-time tokenizer exactly on raw
hashtag strings that contain no comma. -/
theorem C4_tokenizers_agree_without_commas (s : String)
    (h : ',' ∉ s.toList) : tokenizeUpload s = tokenizeFallback s := by
  unfold tokenizeUpload tokenizeFallback
  have hag : ∀ c ∈ s.toList,
      (c.isWhitespace || decide (c = ',')) = c.isWhitespace := by
    intro c hc
    have hne : ¬ (c = ',') := fun e => h (e ▸ hc)
    simp [hne]
  rw [splitFields_congr s.toList hag]

/-- C4 witness: the amended theorem applied to a comma-free string. -/
theorem C4_tokenizers_agree_without_commas_witness :
    tokenizeUpload "#a #b" = tokenizeFallback "#a #b" :=
  C4_tokenizers_agree_without_commas "#a #b" (by decide)

/-! Claim C5. -/

/-- C5: if any non-per-tag-tolerated error hits the upload transaction
after the user lookup (file read, snap insert, or commit), the
transaction is rolled back so the database — snap rows, hashtag rows,
hence feed contents and totals — is exactly as before, the caller gets
the server-fault response, and the temporary uploaded file is removed,
whichever step failed. -/
theorem C5_fatal_upload_error_rolls_back (db : DB) (args : UploadArgs)
    (ctx : UploadCtx) (u : User) (step : FatalStep)
    (hu : db.users.find? (fun x => x.id = args.userId) = some u)
    (hf : ctx.fatal = some step) :
    (createSnap db args ctx).db = db
    ∧ (createSnap db args ctx).response = .serverFault
    ∧ (createSnap db args ctx).tempFileRemoved = true
    ∧ (∀ page limit resp,
        FeedValid (createSnap db args ctx).db page limit resp ↔
          FeedValid db page limit resp) := by
  have hrun : createSnap db args ctx =
      { db := db, response := .serverFault, tempFileRemoved := true } := by
    unfold createSnap
    rw [hu, hf]
  rw [hrun]
  exact ⟨rfl, rfl, rfl, fun _ _ _ => Iff.rfl⟩

/-- C5 witness: the theorem applied to a COMMIT failure on a store
holding the uploading user. -/
theorem C5_fatal_upload_error_rolls_back_witness :
    (createSnap aliceDb sampleArgs commitFailCtx).db = aliceDb ∧
    (createSnap aliceDb sampleArgs commitFailCtx).response =
      .serverFault ∧
    (createSnap aliceDb sampleArgs commitFailCtx).tempFileRemoved =
      true :=
  ⟨(C5_fatal_upload_error_rolls_back aliceDb sampleArgs commitFailCtx
      aliceU .commit (by decide) rfl).1,
   (C5_fatal_upload_error_rolls_back aliceDb sampleArgs commitFailCtx
      aliceU .commit (by decide) rfl).2.1,
   (C5_fatal_upload_error_rolls_back aliceDb sampleArgs commitFailCtx
      aliceU .commit (by decide) rfl).2.2.1⟩

/-! Claim C6. -/

/-- C6: a completed reaper pass at time `now` keeps exactly the snaps
with `created_at ≥ now - 12h` (so it deletes exactly those older than
`now - 12h`, and it reports that many deleted rows), and an immediately
repeated pass is a no-op deleting 0 rows — the pass is idempotent and,
being a total function, cannot error. -/
theorem C6_reaper_exact_and_idempotent (db : DB) (now : Int) :
    (∀ s, s ∈ (cleanupExpiredSnaps now db).1.snaps ↔
        s ∈ db.snaps ∧ now - TTL ≤ s.created_at)
    ∧ (cleanupExpiredSnaps now db).2 =
        (db.snaps.filter (fun s => s.created_at < now - TTL)).length
    ∧ (cleanupExpiredSnaps now (cleanupExpiredSnaps now db).1).1 =
        (cleanupExpiredSnaps now db).1
    ∧ (cleanupExpiredSnaps now (cleanupExpiredSnaps now db).1).2 = 0 := by
  refine ⟨?_, rfl, ?_, ?_⟩
  · intro s
    simp [cleanupExpiredSnaps, List.mem_filter, reapCondition, not_lt]
  · simp only [cleanupExpiredSnaps]
    congr 1
    · rw [List.filter_filter]
      simp
    · rw [List.filter_filter]
      simp
  · simp only [cleanupExpiredSnaps]
    rw [List.filter_filter]
    simp [reapCondition]

/-- C6 witness: the theorem applied to a store with one stale and one
fresh snap. -/
theorem C6_reaper_exact_and_idempotent_witness :
    freshSnap ∈ (cleanupExpiredSnaps 50000 reaperDb).1.snaps ∧
    (cleanupExpiredSnaps 50000
      (cleanupExpiredSnaps 50000 reaperDb).1).2 = 0 :=
  ⟨(C6_reaper_exact_and_idempotent reaperDb 50000).1 freshSnap |>.mpr
      ⟨by decide, by decide⟩,
   (C6_reaper_exact_and_idempotent reaperDb 50000).2.2.2⟩

/-! Claim C7. -/

/-- C7 counterexample: a store holds user 7 with `is_active = false`,
yet that user's upload succeeds and stores a snap — the owner lookup
(`SELECT id, username FROM users WHERE id = $1`) never consults the
active flag, so the upload is not rejected. -/
theorem C7_counterexample :
    bobInactive.is_active = false ∧
    (createSnap inactiveDb bobArgs plainCtx).response =
      .created 42 "bob" 0 ∧
    (createSnap inactiveDb bobArgs plainCtx).db.snaps ≠ [] := by
  decide

/-- C7 (amended): `createSnap` rejects an upload only when no user row
with the given id exists at all — the active flag is not consulted —
and then it answers the "not found" client fault and leaves the store
unchanged; when any user row with that id is present (active or not)
and nothing fails, the upload is accepted. -/
theorem C7_rejects_only_missing_owner (db : DB) (args : UploadArgs)
    (ctx : UploadCtx) :
    (db.users.find? (fun u => u.id = args.userId) = none →
      (createSnap db args ctx).response = .userNotFound ∧
      (createSnap db args ctx).db = db)
    ∧ (∀ u, db.users.find? (fun u2 => u2.id = args.userId) = some u →
        ctx.fatal = none →
        (createSnap db args ctx).response =
          .created ctx.newId u.username ctx.dbNow) := by
  constructor
  · intro h
    simp [createSnap, h]
  · intro u h hf
    simp [createSnap, h, hf]

/-- C7 witness: the amended theorem applied to a store with no users. -/
theorem C7_rejects_only_missing_owner_witness :
    (createSnap emptyDb bobArgs plainCtx).response = .userNotFound ∧
    (createSnap emptyDb bobArgs plainCtx).db = emptyDb :=
  (C7_rejects_only_missing_owner emptyDb bobArgs plainCtx).1 rfl

/-! Claim C8. -/

/-- C8: the upload tokenizer splits "#foo, #bar  baz" on whitespace and
commas and keeps exactly the sigil-initial tags #foo and #bar (bare
"baz" discarded); re-inserting a (snap, tag) pair that is already
present is a no-op rather than an error; and with no per-tag failures
the fan-out stores exactly the old rows plus one row per tokenized
tag. -/
theorem C8_tokenize_and_dedup :
    tokenizeUpload "#foo, #bar  baz" = ["#foo", "#bar"]
    ∧ (∀ assoc snapId tag, (snapId, tag) ∈ assoc →
        indexHashtags snapId [] assoc [tag] = assoc)
    ∧ (∀ assoc snapId tags p,
        p ∈ indexHashtags snapId [] assoc tags ↔
          p ∈ assoc ∨ ∃ t ∈ tags, p = (snapId, t)) := by
  refine ⟨by decide, ?_,
    fun assoc snapId tags p => mem_indexHashtags snapId tags assoc p⟩
  intro assoc snapId tag h
  simp [indexHashtags, h]

/-- C8 witness: the theorem applied to concrete inserts. -/
theorem C8_tokenize_and_dedup_witness :
    indexHashtags 5 [] [(5, "#x")] ["#x"] = [(5, "#x")] ∧
    (5, "#x") ∈ indexHashtags 5 [] [] ["#x"] :=
  ⟨C8_tokenize_and_dedup.2.1 [(5, "#x")] 5 "#x" (by decide),
   (C8_tokenize_and_dedup.2.2 [] 5 ["#x"] (5, "#x")).mpr
     (Or.inr ⟨"#x", by simp, rfl⟩)⟩

/-! Claim C9. -/

/-- C9: the visibility flag has no effect on any read path — for two
database states that differ only in the `is_public` values of their
snaps, the set of valid feed responses, the single-snap fetch and the
image fetch are identical: every stored snap is served to every caller
whatever its `is_public` value. -/
theorem C9_visibility_flag_inert (db1 db2 : DB)
    (h : VisibilityTwin db1 db2) :
    (∀ page limit resp,
      FeedValid db1 page limit resp ↔ FeedValid db2 page limit resp)
    ∧ (∀ id, getSnapMeta db1 id = getSnapMeta db2 id)
    ∧ (∀ id, getSnapImage db1 id = getSnapImage db2 id) := by
  obtain ⟨hu, hh, hf⟩ := h
  have hf2 : List.Forall₂ (fun a b => a.core = b.core)
      db2.snaps db1.snaps :=
    List.Forall₂.flip (hf.imp (fun a b e => e.symm))
  exact ⟨fun page limit resp =>
      ⟨feedValid_imp db1 db2 hu hh hf page limit resp,
       feedValid_imp db2 db1 hu.symm hh.symm hf2 page limit resp⟩,
    fun id => getSnapMeta_congr db1 db2 hu hh hf id,
    fun id => getSnapImage_congr db1 db2 hf id⟩

/-- C9 witness: the theorem applied to two states that differ only in
one snap's `is_public`. -/
theorem C9_visibility_flag_inert_witness :
    getSnapMeta pubDb 9 = getSnapMeta privDb 9 ∧
    getSnapImage pubDb 9 = getSnapImage privDb 9 :=
  ⟨(C9_visibility_flag_inert pubDb privDb
      ⟨rfl, rfl, List.Forall₂.cons (by decide) List.Forall₂.nil⟩).2.1 9,
   (C9_visibility_flag_inert pubDb privDb
      ⟨rfl, rfl, List.Forall₂.cons (by decide) List.Forall₂.nil⟩).2.2 9⟩

/-! Claim C10. -/

/-- C10: no operation ever modifies a snap's `view_count` — uploads
insert rows whose `view_count` takes the column default 0, and neither
the read endpoints nor the reaper update it, so across every operation
sequence every stored snap's `view_count` stays 0 from creation until
its row is deleted. -/
theorem C10_view_count_never_modified (db : DB) (ops : List Op)
    (h : ∀ s ∈ db.snaps, s.view_count = 0) :
    ∀ s ∈ (runOps db ops).snaps, s.view_count = 0 := by
  induction ops generalizing db with
  | nil => exact h
  | cons op rest ih => exact ih (applyOp db op) (viewZero_applyOp db op h)

/-- C10 witness: the theorem applied to a concrete operation sequence,
read off at the snap that the upload inserted. -/
theorem C10_view_count_never_modified_witness :
    (insertedSnap sampleArgs plainCtx).view_count = 0 :=
  C10_view_count_never_modified reaperDb
    [Op.upload sampleArgs plainCtx, Op.feedReq 1 10] (by decide)
    (insertedSnap sampleArgs plainCtx) (by decide)

end KitSlick
